import Mathlib

/-
Shallow embedding of src/src/service/protocol/bluetooth.js, the Bluez
ChannelService of gnome-shell-extension-gsconnect.

The stateful GObject class is modelled as explicit state passing: each
method becomes a function from a `ServiceState` (plus the parameters the
bus delivers and the outcomes of external collaborators) to a new state
together with the ordered list of observable external calls (`Call`) it
issues.  JavaScript Maps are insertion-ordered association lists,
JavaScript truthiness and strict equality are embedded where the source
relies on them (`vfunc_g_signal`), and exceptions are made explicit
(`JsOutcome`).
-/

namespace Bluetooth

/-- Embedded JavaScript values, as far as vfunc_g_signal's guard needs them:
g_name_owner is either null or a string, and the guard applies logical not
and strict equality to it. -/
inductive JSVal where
  | vnull : JSVal
  | vundef : JSVal
  | vbool : Bool → JSVal
  | vstr : String → JSVal
deriving DecidableEq

/-- JavaScript truthiness: null and undefined are falsy, a string is truthy
iff non-empty. -/
def jsTruthy : JSVal → Bool
  | JSVal.vnull => false
  | JSVal.vundef => false
  | JSVal.vbool b => b
  | JSVal.vstr s => !s.isEmpty

/-- JavaScript logical not: always produces a boolean. -/
def jsNot (v : JSVal) : JSVal := JSVal.vbool (!jsTruthy v)

/-- JavaScript strict equality (the === operator): values of different
runtime types are never strictly equal. -/
def jsStrictEq : JSVal → JSVal → Bool
  | JSVal.vnull, JSVal.vnull => true
  | JSVal.vundef, JSVal.vundef => true
  | JSVal.vbool a, JSVal.vbool b => a == b
  | JSVal.vstr a, JSVal.vstr b => a == b
  | _, _ => false

/-- The KDE Connect service UUID (SERVICE_UUID in the source). -/
def SERVICE_UUID : String := "185f3df4-3268-4e3f-9fca-d4d5059915bd"

/-- Modelled from the spec: SERVICE_RECORD is loaded at startup from the
application resource `gsconnect.app_id`.sdp.xml, which is not part of src/;
only its identity as one fixed string matters to the claims, so it is an
opaque constant here. -/
def SERVICE_RECORD : String := "gsconnect-static-sdp-record"

/-- The option dictionary passed to RegisterProfile (SERVICE_PROFILE in the
source): RequireAuthorization=false, RequireAuthentication=true,
ServiceRecord=SERVICE_RECORD. -/
structure ProfileOptions where
  requireAuthorization : Bool
  requireAuthentication : Bool
  serviceRecord : String
deriving DecidableEq

def SERVICE_PROFILE : ProfileOptions :=
  { requireAuthorization := false
    requireAuthentication := true
    serviceRecord := SERVICE_RECORD }

/-- The object path at which the Profile1 interface is exported in
_init_async. -/
def PROFILE_PATH : String := "/org/gnome/Shell/Extensions/GSConnect/Bluetooth"

/-- An org.bluez.Device1 proxy as _getDeviceProxy builds it: the cached bus
properties the code reads, the `_muxer` channel slot (None = null) and the
`__deviceChangedId` signal-subscription handle. -/
structure BlueDev where
  g_object_path : String
  address : String
  deviceAlias : String
  paired : Bool
  connected : Bool
  servicesResolved : Bool
  uuids : List String
  muxer : Option Nat
  changedId : Nat
deriving DecidableEq

/-- The bus-visible attributes of a device object, as read when the proxy
is materialized; this is the environment's answer to _getDeviceProxy
(None models a proxy-initialization failure). -/
structure DevData where
  address : String
  deviceAlias : String
  paired : Bool
  connected : Bool
  servicesResolved : Bool
  uuids : List String
deriving DecidableEq

/-- Observable external calls, in the order the code issues them. -/
inductive Call where
  | connectProfile : String → String → Call
  | registerProfile : String → String → ProfileOptions → Call
  | getManagedObjects : Call
  | ensureDevice : String → String → Call
  | attach : String → String → Call
  | closeMuxer : String → Call
  | warnLog : String → Call
  | logError : Call
  | notifyDevices : Call
  | profileDestroy : Call
  | profileManagerDestroy : Call
  | signalDisconnect : Nat → Call
  | deviceSignalDisconnect : Nat → Call
deriving DecidableEq

/-- The mutable state of the ChannelService instance. -/
structure ServiceState where
  devices : List (String × BlueDev)
  gNameOwner : Option String
  profilePath : String
  profile : Option Nat
  profileManager : Option Nat
  nameOwnerChangedId : Nat
deriving DecidableEq

/-- JavaScript Map.get on the insertion-ordered device map. -/
def jsMapGet (m : List (String × BlueDev)) (k : String) : Option BlueDev :=
  (m.find? (fun p => p.1 == k)).map Prod.snd

/-- JavaScript Map.has. -/
def jsMapHas (m : List (String × BlueDev)) (k : String) : Bool :=
  (m.find? (fun p => p.1 == k)).isSome

/-- JavaScript Map.set: updates in place when the key exists, appends
otherwise (insertion order preserved). -/
def jsMapSet (m : List (String × BlueDev)) (k : String) (v : BlueDev) :
    List (String × BlueDev) :=
  if jsMapHas m k then m.map (fun p => if p.1 == k then (k, v) else p)
  else m ++ [(k, v)]

/-- JavaScript Map.delete. -/
def jsMapDelete (m : List (String × BlueDev)) (k : String) :
    List (String × BlueDev) :=
  m.filter (fun p => p.1 != k)

/-- The devices getter: tracked devices whose UUIDs include SERVICE_UUID. -/
def devicesView (s : ServiceState) : List BlueDev :=
  (s.devices.map Prod.snd).filter (fun d => d.uuids.contains SERVICE_UUID)

/-- Number of active channels a device holds (its single `_muxer` slot). -/
def devChannelCount (d : BlueDev) : Nat :=
  if d.muxer.isSome then 1 else 0

/-- Number of devices in a state holding an active channel. -/
def activeChannels (s : ServiceState) : Nat :=
  (s.devices.filter (fun p => p.2.muxer.isSome)).length

/-- The close function _getDeviceProxy installs on each proxy: if `_muxer`
is non-null, close it and null the slot; otherwise do nothing. -/
def deviceClose (bludev : BlueDev) : BlueDev × List Call :=
  match bludev.muxer with
  | some _ => ({ bludev with muxer := none }, [Call.closeMuxer bludev.g_object_path])
  | none => (bludev, [])

/-- The device proxy _getDeviceProxy builds from the bus-read attributes:
it starts with a null `_muxer` slot. -/
def freshProxy (object_path : String) (fresh : Nat) (d : DevData) : BlueDev :=
  { g_object_path := object_path
    address := d.address
    deviceAlias := d.deviceAlias
    paired := d.paired
    connected := d.connected
    servicesResolved := d.servicesResolved
    uuids := d.uuids
    muxer := none
    changedId := fresh }

/-- _getDeviceProxy: materialize a device proxy from the bus (environment
answer `env`); the fresh proxy starts with a null `_muxer`.  A failure
(env answers none) yields undefined. -/
def getDeviceProxy (env : String → Option DevData) (fresh : Nat)
    (object_path : String) : Option BlueDev :=
  (env object_path).map (freshProxy object_path fresh)

/-- _connectDevice: no-op when the device already has a channel; otherwise,
only for paired devices, issue ConnectProfile(SERVICE_UUID).  Errors from
the request are swallowed and the state is unchanged either way. -/
def connectDevice (bludev : BlueDev) : List Call :=
  if bludev.muxer.isSome then []
  else if bludev.paired then [Call.connectProfile bludev.g_object_path SERVICE_UUID]
  else []

/-- RequestDisconnection: look the device up; if tracked, close it (a
silent no-op when unknown). -/
def requestDisconnection (s : ServiceState) (object_path : String) :
    ServiceState × List Call :=
  match jsMapGet s.devices object_path with
  | some bludev =>
      let r := deviceClose bludev
      ({ s with devices := jsMapSet s.devices object_path r.1 }, r.2)
  | none => (s, [])

/-- broadcast: delegate to _connectDevice when the device is tracked. -/
def broadcast (s : ServiceState) (object_path : String) : List Call :=
  match jsMapGet s.devices object_path with
  | some bludev => connectDevice bludev
  | none => []

/-- The _onInterfacesAdded loop over the interface names: skip non-Device1
interfaces, skip already-tracked paths, skip (with a warning) proxy
initialization failures, otherwise store the proxy and emit
notify::devices. -/
def addLoop (env : String → Option DevData) (object_path : String) :
    ServiceState → List String → ServiceState × List Call
  | s, [] => (s, [])
  | s, interface_name :: rest =>
      if interface_name != "org.bluez.Device1" then addLoop env object_path s rest
      else if jsMapHas s.devices object_path then addLoop env object_path s rest
      else
        match getDeviceProxy env s.devices.length object_path with
        | none =>
            let r := addLoop env object_path s rest
            (r.1, Call.warnLog object_path :: r.2)
        | some proxy =>
            let s2 := { s with devices := jsMapSet s.devices object_path proxy }
            let r := addLoop env object_path s2 rest
            (r.1, Call.notifyDevices :: r.2)

/-- _onInterfacesAdded over the interface dictionary's names. -/
def onInterfacesAdded (env : String → Option DevData) (s : ServiceState)
    (object_path : String) (interfaces : List String) :
    ServiceState × List Call :=
  addLoop env object_path s interfaces

/-- The _onInterfacesRemoved loop over the removed interface names: skip
non-Device1 names and unknown paths; otherwise disconnect the
device-changed handler, run RequestDisconnection (closing any channel),
delete the entry and emit notify::devices. -/
def removeLoop (object_path : String) :
    ServiceState → List String → ServiceState × List Call
  | s, [] => (s, [])
  | s, interface_name :: rest =>
      if interface_name != "org.bluez.Device1" then removeLoop object_path s rest
      else
        match jsMapGet s.devices object_path with
        | none => removeLoop object_path s rest
        | some proxy =>
            let r := requestDisconnection s object_path
            let s2 := { r.1 with devices := jsMapDelete r.1.devices object_path }
            let r2 := removeLoop object_path s2 rest
            (r2.1,
             Call.deviceSignalDisconnect proxy.changedId
               :: (r.2 ++ (Call.notifyDevices :: r2.2)))

/-- _onInterfacesRemoved: an empty interface list is ignored outright;
otherwise process each removed interface name. -/
def onInterfacesRemoved (s : ServiceState) (object_path : String)
    (interfaces : List String) : ServiceState × List Call :=
  if interfaces.length == 0 then (s, [])
  else removeLoop object_path s interfaces

/-- The decoded change set of a g-properties-changed notification:
`some b` means the key is present with value b, `none` that it is absent
(so the source's truthiness test on an absent key reads undefined). -/
structure ChangeSet where
  connected : Option Bool
  servicesResolved : Option Bool
deriving DecidableEq

/-- _onDeviceChanged: a present Connected key decides alone (true connects,
false requests disconnection); only when Connected is absent does a truthy
ServicesResolved trigger a connection attempt. -/
def onDeviceChanged (s : ServiceState) (proxy : BlueDev) (changed : ChangeSet) :
    ServiceState × List Call :=
  match changed.connected with
  | some b =>
      if b then (s, connectDevice proxy)
      else requestDisconnection s proxy.g_object_path
  | none =>
      if changed.servicesResolved.getD false then (s, connectDevice proxy)
      else (s, [])

/-- The catch-up loop of _onNameOwnerChanged's bound branch: feed every
managed object through _onInterfacesAdded in order. -/
def addAllObjects (env : String → Option DevData) :
    ServiceState → List (String × List String) → ServiceState × List Call
  | s, [] => (s, [])
  | s, obj :: rest =>
      let r := onInterfacesAdded env s obj.1 obj.2
      let r2 := addAllObjects env r.1 rest
      (r2.1, r.2 ++ r2.2)

/-- _onNameOwnerChanged.  Unbound branch (owner null): disconnect every
device's changed-handler and delete it from the map, then call
GetManagedObjects.  Bound branch: RegisterProfile first (with the exported
profile path, SERVICE_UUID and SERVICE_PROFILE); only if that succeeds
(`regOk`), enumerate the managed objects and feed each through
_onInterfacesAdded; a registration failure is logged and nothing more
happens until the next owner change. -/
def onNameOwnerChanged (env : String → Option DevData) (s : ServiceState)
    (regOk : Bool) (objects : List (String × List String)) :
    ServiceState × List Call :=
  match s.gNameOwner with
  | none =>
      ({ s with devices := [] },
       (s.devices.map (fun p => Call.deviceSignalDisconnect p.2.changedId))
         ++ [Call.getManagedObjects])
  | some _ =>
      let regCall := Call.registerProfile s.profilePath SERVICE_UUID SERVICE_PROFILE
      if regOk then
        let r := addAllObjects env s objects
        (r.1, regCall :: Call.getManagedObjects :: r.2)
      else
        (s, [regCall, Call.logError])

/-- The guard expression of vfunc_g_signal, exactly as written in the
source: `!this.g_name_owner === null` (the handler returns early when it is
true).  g_name_owner is a string or null. -/
def ownerVal : Option String → JSVal
  | none => JSVal.vnull
  | some s => JSVal.vstr s

def signalGuardFires (owner : Option String) : Bool :=
  jsStrictEq (jsNot (ownerVal owner)) JSVal.vnull

/-- vfunc_g_signal: early-return when the guard fires, otherwise dispatch
InterfacesAdded / InterfacesRemoved to their handlers (other signals are
ignored).  `addIfaces` / `removedIfaces` are the decoded parameters of the
respective signal. -/
def vfuncGSignal (env : String → Option DevData) (s : ServiceState)
    (signal_name : String) (object_path : String)
    (addIfaces : List String) (removedIfaces : List String) :
    ServiceState × List Call :=
  if signalGuardFires s.gNameOwner then (s, [])
  else if signal_name == "InterfacesAdded" then
    onInterfacesAdded env s object_path addIfaces
  else if signal_name == "InterfacesRemoved" then
    onInterfacesRemoved s object_path removedIfaces
  else (s, [])

/-- Whether the async handler resolved normally or rejected with an
uncaught exception. -/
inductive JsOutcome where
  | ok : JsOutcome
  | thrown : JsOutcome
deriving DecidableEq

/-- NewConnection.  When the object path is untracked, the lookup yields
undefined; the assignment `bludev._muxer = ...` throws a TypeError and the
catch handler's own `bludev.close()` throws again, so the handler rejects
with no stream close, no warning and no device-manager call.  When tracked,
the muxer is installed unconditionally; a successful negotiation
(`negotiateOk`) annotates the identity with the device's address and object
path and hands it to _ensureDevice (whose failure `ensureOk = false`
throws) and then attaches; any caught failure closes the device's channel
and logs a warning with the device alias. -/
def newConnection (s : ServiceState) (object_path : String)
    (negotiateOk : Bool) (ensureOk : Bool) :
    ServiceState × List Call × JsOutcome :=
  match jsMapGet s.devices object_path with
  | none => (s, [], JsOutcome.thrown)
  | some bludev =>
      let bludev1 := { bludev with muxer := some (s.devices.length + 1) }
      let s1 := { s with devices := jsMapSet s.devices object_path bludev1 }
      if negotiateOk then
        if ensureOk then
          (s1,
           [Call.ensureDevice bludev.address bludev.g_object_path,
            Call.attach bludev.address bludev.g_object_path],
           JsOutcome.ok)
        else
          let r := deviceClose bludev1
          ({ s1 with devices := jsMapSet s1.devices object_path r.1 },
           [Call.ensureDevice bludev.address bludev.g_object_path] ++ r.2
             ++ [Call.warnLog bludev.deviceAlias],
           JsOutcome.ok)
      else
        let r := deviceClose bludev1
        ({ s1 with devices := jsMapSet s1.devices object_path r.1 },
         r.2 ++ [Call.warnLog bludev.deviceAlias],
         JsOutcome.ok)

/-- The close calls emitted by destroy's device loop, in map order. -/
def closeAllCalls : List (String × BlueDev) → List Call
  | [] => []
  | p :: rest => (deviceClose p.2).2 ++ closeAllCalls rest

/-- destroy: disconnect the name-owner watch (unguarded), close every
tracked device's channel (the proxies stay in the map with a nulled
`_muxer`), destroy the exported profile when non-null (WITHOUT nulling the
reference), and destroy the profile manager when non-null (nulling it). -/
def destroy (s : ServiceState) : ServiceState × List Call :=
  ({ s with devices := s.devices.map (fun p => (p.1, (deviceClose p.2).1)),
            profileManager := none },
   [Call.signalDisconnect s.nameOwnerChangedId] ++ closeAllCalls s.devices
     ++ (if s.profile.isSome then [Call.profileDestroy] else [])
     ++ (if s.profileManager.isSome then [Call.profileManagerDestroy] else []))

/-- Count the calls in a trace satisfying a predicate. -/
def countCalls (calls : List Call) (p : Call → Bool) : Nat :=
  (calls.filter p).length

def isConnectProfile : Call → Bool
  | Call.connectProfile _ _ => true
  | _ => false

def isRegisterProfile : Call → Bool
  | Call.registerProfile _ _ _ => true
  | _ => false

def isEnsureDevice : Call → Bool
  | Call.ensureDevice _ _ => true
  | _ => false

def isAttach : Call → Bool
  | Call.attach _ _ => true
  | _ => false

def isCloseMuxer : Call → Bool
  | Call.closeMuxer _ => true
  | _ => false

def isWarnLog : Call → Bool
  | Call.warnLog _ => true
  | _ => false

def isProfileDestroy : Call → Bool
  | Call.profileDestroy => true
  | _ => false

def isProfileManagerDestroy : Call → Bool
  | Call.profileManagerDestroy => true
  | _ => false

/-- A concrete tracked device for evaluating the model, parametric in the
channel slot. -/
def sampleDev (muxer : Option Nat) : BlueDev :=
  { g_object_path := "/org/bluez/hci0/dev_AA_BB_CC_DD_EE_FF"
    address := "AA:BB:CC:DD:EE:FF"
    deviceAlias := "Phone"
    paired := true
    connected := true
    servicesResolved := true
    uuids := [SERVICE_UUID]
    muxer := muxer
    changedId := 1 }

/-- A concrete service state tracking sampleDev, parametric in the daemon
owner and the device's channel slot. -/
def sampleState (gOwner : Option String) (muxer : Option Nat) : ServiceState :=
  { devices := [("/org/bluez/hci0/dev_AA_BB_CC_DD_EE_FF", sampleDev muxer)]
    gNameOwner := gOwner
    profilePath := PROFILE_PATH
    profile := some 7
    profileManager := some 3
    nameOwnerChangedId := 11 }

/-- A concrete bound state tracking no devices. -/
def emptyBoundState : ServiceState :=
  { devices := []
    gNameOwner := some ":1.3"
    profilePath := PROFILE_PATH
    profile := some 7
    profileManager := some 3
    nameOwnerChangedId := 11 }

/-- An environment on which every device-proxy initialization fails. -/
def emptyEnv : String → Option DevData := fun _ => none

/-- An environment answering every path with the same device data. -/
def sampleEnv : String → Option DevData := fun _ =>
  some { address := "AA:BB:CC:DD:EE:FF"
         deviceAlias := "Phone"
         paired := true
         connected := false
         servicesResolved := false
         uuids := [SERVICE_UUID] }

theorem jsMapGet_eq_none_of_not_has (m : List (String × BlueDev)) (k : String)
    (h : jsMapHas m k = false) : jsMapGet m k = none := by
  unfold jsMapHas at h
  unfold jsMapGet
  cases hf : m.find? (fun p => p.1 == k) with
  | none => rfl
  | some p => rw [hf] at h; simp at h

theorem jsMapHas_of_get (m : List (String × BlueDev)) (k : String) (d : BlueDev)
    (h : jsMapGet m k = some d) : jsMapHas m k = true := by
  unfold jsMapGet at h
  unfold jsMapHas
  cases hf : m.find? (fun p => p.1 == k) with
  | none => rw [hf] at h; simp at h
  | some p => simp [hf]

theorem jsMapSet_not_has (m : List (String × BlueDev)) (k : String) (v : BlueDev)
    (h : jsMapHas m k = false) : jsMapSet m k v = m ++ [(k, v)] := by
  unfold jsMapSet
  simp [h]

theorem getDeviceProxy_muxer (env : String → Option DevData) (fresh : Nat)
    (object_path : String) (proxy : BlueDev)
    (h : getDeviceProxy env fresh object_path = some proxy) : proxy.muxer = none := by
  unfold getDeviceProxy at h
  cases he : env object_path with
  | none => rw [he] at h; simp at h
  | some dd =>
      rw [he] at h
      have h2 : freshProxy object_path fresh dd = proxy := by simpa using h
      rw [← h2]
      rfl

theorem countCalls_append (a b : List Call) (p : Call → Bool) :
    countCalls (a ++ b) p = countCalls a p + countCalls b p := by
  unfold countCalls
  rw [List.filter_append, List.length_append]

theorem countCalls_eq_zero (calls : List Call) (p : Call → Bool)
    (h : ∀ c ∈ calls, p c = false) : countCalls calls p = 0 := by
  induction calls with
  | nil => rfl
  | cons c rest ih =>
      unfold countCalls at ih ⊢
      rw [List.filter_cons]
      have hc := h c (List.mem_cons_self c rest)
      simp only [hc]
      exact ih (fun x hx => h x (List.mem_cons_of_mem c hx))

theorem addLoop_tracked (env : String → Option DevData) (object_path : String)
    (ifaces : List String) :
    ∀ s : ServiceState, jsMapHas s.devices object_path = true →
      addLoop env object_path s ifaces = (s, []) := by
  induction ifaces with
  | nil => intro s _; rfl
  | cons name rest ih =>
      intro s h
      simp only [addLoop]
      by_cases hn : name != "org.bluez.Device1"
      · simp [hn, ih s h]
      · simp [hn, h, ih s h]

theorem removeLoop_untracked (object_path : String) (ifaces : List String) :
    ∀ s : ServiceState, jsMapHas s.devices object_path = false →
      removeLoop object_path s ifaces = (s, []) := by
  induction ifaces with
  | nil => intro s _; rfl
  | cons name rest ih =>
      intro s h
      have hg := jsMapGet_eq_none_of_not_has s.devices object_path h
      simp only [removeLoop]
      by_cases hn : name != "org.bluez.Device1"
      · simp [hn, ih s h]
      · simp [hn, hg, ih s h]

theorem addLoop_devices_mem (env : String → Option DevData) (object_path : String)
    (ifaces : List String) :
    ∀ (s : ServiceState) (p : String) (d : BlueDev),
      (p, d) ∈ (addLoop env object_path s ifaces).1.devices →
      (p, d) ∈ s.devices ∨ d.muxer = none := by
  induction ifaces with
  | nil => intro s p d h; exact Or.inl h
  | cons name rest ih =>
      intro s p d h
      simp only [addLoop] at h
      by_cases hn : name != "org.bluez.Device1"
      · rw [if_pos hn] at h
        exact ih s p d h
      · rw [if_neg hn] at h
        by_cases hh : jsMapHas s.devices object_path
        · rw [if_pos hh] at h
          exact ih s p d h
        · rw [if_neg hh] at h
          cases hg : getDeviceProxy env s.devices.length object_path with
          | none =>
              rw [hg] at h
              exact ih s p d h
          | some proxy =>
              rw [hg] at h
              rcases ih _ p d h with h2 | h2
              · rw [jsMapSet_not_has s.devices object_path proxy
                    (Bool.not_eq_true _ ▸ eq_false_of_ne_true hh)] at h2
                rcases List.mem_append.mp h2 with h3 | h3
                · exact Or.inl h3
                · right
                  have h4 : (p, d) = (object_path, proxy) := by simpa using h3
                  have h5 : d = proxy := congrArg Prod.snd h4
                  rw [h5]
                  exact getDeviceProxy_muxer env s.devices.length object_path proxy hg
              · exact Or.inr h2

theorem addAllObjects_devices_mem (env : String → Option DevData)
    (objects : List (String × List String)) :
    ∀ (s : ServiceState) (p : String) (d : BlueDev),
      (p, d) ∈ (addAllObjects env s objects).1.devices →
      (p, d) ∈ s.devices ∨ d.muxer = none := by
  induction objects with
  | nil => intro s p d h; exact Or.inl h
  | cons obj rest ih =>
      intro s p d h
      simp only [addAllObjects] at h
      rcases ih _ p d h with h2 | h2
      · exact addLoop_devices_mem env obj.1 obj.2 s p d h2
      · exact Or.inr h2

theorem addLoop_calls_mem (env : String → Option DevData) (object_path : String)
    (ifaces : List String) :
    ∀ (s : ServiceState) (c : Call), c ∈ (addLoop env object_path s ifaces).2 →
      c = Call.notifyDevices ∨ c = Call.warnLog object_path := by
  induction ifaces with
  | nil => intro s c h; cases h
  | cons name rest ih =>
      intro s c h
      simp only [addLoop] at h
      by_cases hn : name != "org.bluez.Device1"
      · rw [if_pos hn] at h
        exact ih s c h
      · rw [if_neg hn] at h
        by_cases hh : jsMapHas s.devices object_path
        · rw [if_pos hh] at h
          exact ih s c h
        · rw [if_neg hh] at h
          cases hg : getDeviceProxy env s.devices.length object_path with
          | none =>
              rw [hg] at h
              rcases List.mem_cons.mp h with h2 | h2
              · exact Or.inr h2
              · exact ih s c h2
          | some proxy =>
              rw [hg] at h
              rcases List.mem_cons.mp h with h2 | h2
              · exact Or.inl h2
              · exact ih _ c h2

theorem addAllObjects_calls_mem (env : String → Option DevData)
    (objects : List (String × List String)) :
    ∀ (s : ServiceState) (c : Call), c ∈ (addAllObjects env s objects).2 →
      c = Call.notifyDevices ∨ ∃ w, c = Call.warnLog w := by
  induction objects with
  | nil => intro s c h; cases h
  | cons obj rest ih =>
      intro s c h
      simp only [addAllObjects] at h
      rcases List.mem_append.mp h with h2 | h2
      · rcases addLoop_calls_mem env obj.1 obj.2 s c h2 with h3 | h3
        · exact Or.inl h3
        · exact Or.inr ⟨obj.1, h3⟩
      · exact ih _ c h2

theorem deviceClose_muxer (d : BlueDev) : (deviceClose d).1.muxer = none := by
  unfold deviceClose
  cases hm : d.muxer with
  | none => exact hm
  | some m => rfl

theorem deviceClose_calls_mem (d : BlueDev) :
    ∀ c ∈ (deviceClose d).2, c = Call.closeMuxer d.g_object_path := by
  unfold deviceClose
  cases d.muxer with
  | none => intro c h; cases h
  | some m => intro c h; simpa using h

theorem closeAllCalls_mem (devs : List (String × BlueDev)) :
    ∀ c ∈ closeAllCalls devs, ∃ w, c = Call.closeMuxer w := by
  induction devs with
  | nil => intro c h; cases h
  | cons p rest ih =>
      intro c h
      simp only [closeAllCalls] at h
      rcases List.mem_append.mp h with h2 | h2
      · exact ⟨p.2.g_object_path, deviceClose_calls_mem p.2 c h2⟩
      · exact ih c h2

theorem closeAllCalls_count (devs : List (String × BlueDev)) :
    countCalls (closeAllCalls devs) isCloseMuxer
      = (devs.filter (fun p => p.2.muxer.isSome)).length := by
  induction devs with
  | nil => rfl
  | cons p rest ih =>
      simp only [closeAllCalls, List.filter_cons]
      rw [countCalls_append, ih]
      cases hm : p.2.muxer with
      | none => simp [deviceClose, hm, countCalls]
      | some m =>
          simp [deviceClose, hm, countCalls, isCloseMuxer]
          omega

theorem closeAllCalls_count_other (devs : List (String × BlueDev)) (p : Call → Bool)
    (hp : ∀ w, p (Call.closeMuxer w) = false) :
    countCalls (closeAllCalls devs) p = 0 :=
  countCalls_eq_zero _ _ (fun c hc => by
    rcases closeAllCalls_mem devs c hc with ⟨w, hw⟩
    rw [hw]
    exact hp w)

theorem activeChannels_destroy (s : ServiceState) :
    activeChannels (destroy s).1 = 0 := by
  unfold destroy activeChannels
  simp only []
  induction s.devices with
  | nil => rfl
  | cons p rest ih =>
      simp only [List.map_cons, List.filter_cons, deviceClose_muxer]
      simpa using ih

theorem destroy_closeCount (s : ServiceState) :
    countCalls (destroy s).2 isCloseMuxer = activeChannels s := by
  unfold destroy
  simp only []
  rw [countCalls_append, countCalls_append, countCalls_append,
      closeAllCalls_count]
  have h1 : countCalls [Call.signalDisconnect s.nameOwnerChangedId] isCloseMuxer = 0 := rfl
  have h2 : countCalls (if s.profile.isSome then [Call.profileDestroy] else [])
      isCloseMuxer = 0 := by
    cases s.profile.isSome <;> rfl
  have h3 : countCalls (if s.profileManager.isSome then [Call.profileManagerDestroy] else [])
      isCloseMuxer = 0 := by
    cases s.profileManager.isSome <;> rfl
  rw [h1, h2, h3]
  unfold activeChannels
  omega

theorem filter_map_update (m : List (String × BlueDev)) (k : String) (v : BlueDev) :
    (m.map (fun p => if p.1 == k then (k, v) else p)).filter (fun p => p.1 != k)
      = m.filter (fun p => p.1 != k) := by
  induction m with
  | nil => rfl
  | cons p rest ih =>
      by_cases hp : p.1 == k
      · have hq : p.1 = k := eq_of_beq hp
        have h1 : (((k, v) : String × BlueDev).1 != k) = false := by simp
        have h2 : (p.1 != k) = false := by rw [hq]; simp
        rw [List.map_cons, if_pos hp, List.filter_cons, List.filter_cons, h1, h2,
            if_neg (by simp), if_neg (by simp)]
        exact ih
      · have h0 : (p.1 == k) = false := by simpa using hp
        have h2 : (p.1 != k) = true := by simp [bne, h0]
        rw [List.map_cons, if_neg hp, List.filter_cons, List.filter_cons, h2,
            if_pos rfl, if_pos rfl, ih]

theorem jsMapDelete_jsMapSet (m : List (String × BlueDev)) (k : String) (v : BlueDev) :
    jsMapDelete (jsMapSet m k v) k = jsMapDelete m k := by
  unfold jsMapSet
  by_cases h : jsMapHas m k
  · rw [if_pos h]
    unfold jsMapDelete
    exact filter_map_update m k v
  · rw [if_neg h]
    unfold jsMapDelete
    rw [List.filter_append]
    simp

theorem addLoop_single_untracked (env : String → Option DevData) (s : ServiceState)
    (object_path : String) (data : DevData)
    (hh : jsMapHas s.devices object_path = false) (he : env object_path = some data) :
    addLoop env object_path s ["org.bluez.Device1"]
      = ({ s with devices := s.devices ++
            [(object_path, freshProxy object_path s.devices.length data)] },
         [Call.notifyDevices]) := by
  simp only [addLoop]
  have hproxy : getDeviceProxy env s.devices.length object_path
      = some (freshProxy object_path s.devices.length data) := by
    unfold getDeviceProxy
    rw [he]
    rfl
  simp [hh, hproxy, jsMapSet_not_has s.devices object_path _ hh]

theorem removeLoop_single_tracked (s : ServiceState) (object_path : String)
    (d : BlueDev) (h : jsMapGet s.devices object_path = some d) :
    removeLoop object_path s ["org.bluez.Device1"]
      = ({ s with devices := jsMapDelete s.devices object_path },
         Call.deviceSignalDisconnect d.changedId
           :: ((deviceClose d).2 ++ [Call.notifyDevices])) := by
  simp only [removeLoop]
  simp [h, requestDisconnection, jsMapDelete_jsMapSet]

/-- Claim C1: a RemoteDevice holds at most one active channel (its single
muxer slot), and a second _connectDevice invoked while the channel
reference is non-null is a no-op that issues no additional ConnectProfile
request. -/
theorem connectDevice_active_noop (d : BlueDev) (h : d.muxer.isSome = true) :
    connectDevice d = [] ∧ devChannelCount d ≤ 1 := by
  constructor
  · simp [connectDevice, h]
  · unfold devChannelCount
    split <;> simp

theorem connectDevice_active_noop_witness :
    connectDevice (sampleDev (some 5)) = [] ∧
    devChannelCount (sampleDev (some 5)) ≤ 1 :=
  connectDevice_active_noop (sampleDev (some 5)) rfl

/-- Claim C10: the guard `!this.g_name_owner === null` in vfunc_g_signal
compares a boolean against null, so it is false for every value of
g_name_owner, and InterfacesAdded / InterfacesRemoved signals are always
dispatched to their handlers regardless of name-owner state. -/
theorem signal_guard_never_fires (env : String → Option DevData)
    (s : ServiceState) (object_path : String) (ai ri : List String) :
    signalGuardFires s.gNameOwner = false ∧
    vfuncGSignal env s "InterfacesAdded" object_path ai ri
      = onInterfacesAdded env s object_path ai ∧
    vfuncGSignal env s "InterfacesRemoved" object_path ai ri
      = onInterfacesRemoved s object_path ri := by
  have hg : signalGuardFires s.gNameOwner = false := by
    cases s.gNameOwner with
    | none => rfl
    | some o => rfl
  exact ⟨hg, by simp [vfuncGSignal, hg], by simp [vfuncGSignal, hg]⟩

/-- Claim C3 (code bug): an inbound NewConnection whose object path is not
in the tracked-device map makes the handler reject with a TypeError (the
undefined lookup is dereferenced in the try block and again by the catch
handler's own close call), so no device-manager call and no attach occur,
but the raw stream is NOT closed and no failure is logged — the expressed
cleanup intent of the catch block never runs. -/
theorem newConnection_unknown_device_bug :
    jsMapHas (sampleState (some ":1.3") none).devices "/org/bluez/hci0/dev_XX"
      = false ∧
    newConnection (sampleState (some ":1.3") none) "/org/bluez/hci0/dev_XX"
        true true
      = (sampleState (some ":1.3") none, [], JsOutcome.thrown) := by
  exact ⟨by decide, by decide⟩

/-- Claim C5 counterexample: a change set carrying Connected=false together
with ServicesResolved=true issues no ConnectProfile request for a paired,
tracked, channel-free device (the Connected branch wins), although the same
device does get a ConnectProfile request from a lone ServicesResolved=true
change. -/
theorem deviceChanged_simultaneous_cex :
    (ChangeSet.mk (some false) (some true)).servicesResolved = some true ∧
    countCalls (onDeviceChanged (sampleState (some ":1.3") none) (sampleDev none)
        (ChangeSet.mk (some false) (some true))).2 isConnectProfile = 0 ∧
    onDeviceChanged (sampleState (some ":1.3") none) (sampleDev none)
        (ChangeSet.mk none (some true))
      = (sampleState (some ":1.3") none,
         [Call.connectProfile (sampleDev none).g_object_path SERVICE_UUID]) := by
  exact ⟨rfl, by decide, by decide⟩

/-- Claim C5 amended: a present Connected key decides alone — true invokes
_connectDevice, false issues a disconnection request — and ServicesResolved
becoming true triggers the same idempotent _connectDevice only when the
change set carries no Connected key; any other change set does nothing. -/
theorem deviceChanged_dispatch (s : ServiceState) (proxy : BlueDev)
    (changed : ChangeSet) :
    (changed.connected = some true →
      onDeviceChanged s proxy changed = (s, connectDevice proxy)) ∧
    (changed.connected = some false →
      onDeviceChanged s proxy changed
        = requestDisconnection s proxy.g_object_path) ∧
    (changed.connected = none → changed.servicesResolved = some true →
      onDeviceChanged s proxy changed = (s, connectDevice proxy)) ∧
    (changed.connected = none → changed.servicesResolved ≠ some true →
      onDeviceChanged s proxy changed = (s, [])) := by
  refine ⟨?_, ?_, ?_, ?_⟩
  · intro h
    simp [onDeviceChanged, h]
  · intro h
    simp [onDeviceChanged, h]
  · intro h h2
    simp [onDeviceChanged, h, h2]
  · intro h h2
    cases hsr : changed.servicesResolved with
    | none => simp [onDeviceChanged, h, hsr]
    | some b =>
        cases b with
        | false => simp [onDeviceChanged, h, hsr]
        | true => exact absurd hsr h2

theorem deviceChanged_dispatch_witness :
    onDeviceChanged (sampleState (some ":1.3") none) (sampleDev none)
        (ChangeSet.mk (some true) none)
      = (sampleState (some ":1.3") none, connectDevice (sampleDev none)) :=
  (deviceChanged_dispatch (sampleState (some ":1.3") none) (sampleDev none)
      (ChangeSet.mk (some true) none)).1 rfl

/-- Claim C2 counterexample: when the daemon owner is lost, a tracked
device holding an open channel is dropped by _onNameOwnerChanged without a
single close call — its channel is not closed — whereas the mirror's
removal path would have closed it. -/
theorem unbind_no_close_cex :
    (jsMapGet (sampleState none (some 5)).devices
        "/org/bluez/hci0/dev_AA_BB_CC_DD_EE_FF").map BlueDev.muxer
      = some (some 5) ∧
    countCalls (onNameOwnerChanged emptyEnv (sampleState none (some 5)) true []).2
        isCloseMuxer = 0 ∧
    (onNameOwnerChanged emptyEnv (sampleState none (some 5)) true []).1.devices
      = [] ∧
    countCalls (onInterfacesRemoved (sampleState none (some 5))
        "/org/bluez/hci0/dev_AA_BB_CC_DD_EE_FF" ["org.bluez.Device1"]).2
        isCloseMuxer = 1 := by
  exact ⟨by decide, by decide, by decide, by decide⟩

/-- Claim C4 counterexample: on a bound transition the very first issued
call is RegisterProfile and GetManagedObjects only follows it —
registration precedes the enumeration of managed objects, not the other
way round as claimed. -/
theorem bound_order_cex :
    (onNameOwnerChanged emptyEnv emptyBoundState true []).2
      = [Call.registerProfile PROFILE_PATH SERVICE_UUID SERVICE_PROFILE,
         Call.getManagedObjects] := by
  decide

/-- Claim C9 counterexample: destroy never clears the profile reference, so
a second destroy passes the null-check again and destroys the exported
profile endpoint a second time — one release per invocation of destroy,
refuting the no-double-release claim. -/
theorem destroy_double_release_cex :
    (sampleState (some ":1.3") (some 5)).profile = some 7 ∧
    countCalls (destroy (sampleState (some ":1.3") (some 5))).2
        isProfileDestroy = 1 ∧
    countCalls (destroy (destroy (sampleState (some ":1.3") (some 5))).1).2
        isProfileDestroy = 1 := by
  exact ⟨rfl, by decide, by decide⟩

/-- Claim C7: a successfully negotiated inbound connection on a tracked,
paired device yields exactly one ensureDevice call and exactly one attach
call, and the identity handed over carries the device's hardware address
and its object path. -/
theorem newConnection_success_calls (s : ServiceState) (object_path : String)
    (d : BlueDev) (h : jsMapGet s.devices object_path = some d)
    (hp : d.paired = true) :
    (newConnection s object_path true true).2.1
      = [Call.ensureDevice d.address d.g_object_path,
         Call.attach d.address d.g_object_path] ∧
    countCalls (newConnection s object_path true true).2.1 isEnsureDevice = 1 ∧
    countCalls (newConnection s object_path true true).2.1 isAttach = 1 := by
  have hcalls : (newConnection s object_path true true).2.1
      = [Call.ensureDevice d.address d.g_object_path,
         Call.attach d.address d.g_object_path] := by
    simp [newConnection, h]
  refine ⟨hcalls, ?_, ?_⟩ <;> rw [hcalls] <;>
    simp [countCalls, isEnsureDevice, isAttach]

theorem newConnection_success_calls_witness :
    (newConnection (sampleState (some ":1.3") none)
        "/org/bluez/hci0/dev_AA_BB_CC_DD_EE_FF" true true).2.1
      = [Call.ensureDevice (sampleDev none).address
           (sampleDev none).g_object_path,
         Call.attach (sampleDev none).address
           (sampleDev none).g_object_path] ∧
    countCalls (newConnection (sampleState (some ":1.3") none)
        "/org/bluez/hci0/dev_AA_BB_CC_DD_EE_FF" true true).2.1
        isEnsureDevice = 1 ∧
    countCalls (newConnection (sampleState (some ":1.3") none)
        "/org/bluez/hci0/dev_AA_BB_CC_DD_EE_FF" true true).2.1
        isAttach = 1 :=
  newConnection_success_calls (sampleState (some ":1.3") none)
    "/org/bluez/hci0/dev_AA_BB_CC_DD_EE_FF" (sampleDev none) (by decide) rfl

/-- Claim C2 amended: losing the daemon owner removes every tracked device
from the map (disconnecting its change-handler) and triggers
re-enumeration, but without closing the devices' channels; because any
later rebind re-creates each device proxy with a null channel slot, no
pre-unbind channel is referenced in the post-rebind state — the old channel
objects are merely dropped, not closed. -/
theorem unbind_rebind_state (env : String → Option DevData) (s : ServiceState)
    (regOk : Bool) (objects : List (String × List String))
    (h : s.gNameOwner = none) :
    (onNameOwnerChanged env s regOk objects).1.devices = [] ∧
    Call.getManagedObjects ∈ (onNameOwnerChanged env s regOk objects).2 ∧
    countCalls (onNameOwnerChanged env s regOk objects).2 isCloseMuxer = 0 ∧
    (∀ (env2 : String → Option DevData) (s2 : ServiceState) (regOk2 : Bool)
        (objects2 : List (String × List String)) (o : String) (p : String)
        (d : BlueDev),
      s2.gNameOwner = some o → s2.devices = [] →
      (p, d) ∈ (onNameOwnerChanged env2 s2 regOk2 objects2).1.devices →
      d.muxer = none) := by
  refine ⟨?_, ?_, ?_, ?_⟩
  · simp [onNameOwnerChanged, h]
  · simp [onNameOwnerChanged, h]
  · simp only [onNameOwnerChanged, h]
    rw [countCalls_append]
    have h1 : countCalls
        (s.devices.map (fun p => Call.deviceSignalDisconnect p.2.changedId))
        isCloseMuxer = 0 := by
      apply countCalls_eq_zero
      intro c hc
      rcases List.mem_map.mp hc with ⟨p, _, hp⟩
      rw [← hp]
      rfl
    rw [h1]
    rfl
  · intro env2 s2 regOk2 objects2 o p d h2 hdev hmem
    simp only [onNameOwnerChanged, h2] at hmem
    by_cases hro : regOk2 = true
    · rw [if_pos hro] at hmem
      rcases addAllObjects_devices_mem env2 objects2 s2 p d hmem with h3 | h3
      · rw [hdev] at h3
        cases h3
      · exact h3
    · rw [if_neg hro] at hmem
      rw [hdev] at hmem
      cases hmem

theorem unbind_rebind_state_witness :
    (onNameOwnerChanged emptyEnv (sampleState none (some 5)) true []).1.devices
      = [] ∧
    Call.getManagedObjects
      ∈ (onNameOwnerChanged emptyEnv (sampleState none (some 5)) true []).2 ∧
    countCalls (onNameOwnerChanged emptyEnv (sampleState none (some 5)) true []).2
        isCloseMuxer = 0 ∧
    (freshProxy "/p" 0
      { address := "AA:BB:CC:DD:EE:FF", deviceAlias := "Phone", paired := true,
        connected := false, servicesResolved := false,
        uuids := [SERVICE_UUID] }).muxer = none := by
  have h := unbind_rebind_state emptyEnv (sampleState none (some 5)) true [] rfl
  refine ⟨h.1, h.2.1, h.2.2.1, ?_⟩
  exact h.2.2.2 sampleEnv emptyBoundState true [("/p", ["org.bluez.Device1"])]
    ":1.3" "/p"
    (freshProxy "/p" 0
      { address := "AA:BB:CC:DD:EE:FF", deviceAlias := "Phone", paired := true,
        connected := false, servicesResolved := false,
        uuids := [SERVICE_UUID] })
    rfl rfl (by decide)

/-- Claim C4 amended: on a bound transition the manager first issues the
registration request, then (and only on registration success) calls
GetManagedObjects and feeds every managed object to the mirror as if newly
added; a failed registration is logged, skips the catch-up enumeration and
leaves the state untouched, and registration is not retried — exactly one
registration request per bound transition. -/
theorem bound_register_then_enumerate (env : String → Option DevData)
    (s : ServiceState) (regOk : Bool) (objects : List (String × List String))
    (o : String) (h : s.gNameOwner = some o) :
    (∃ rest, (onNameOwnerChanged env s regOk objects).2
        = Call.registerProfile s.profilePath SERVICE_UUID SERVICE_PROFILE
          :: rest) ∧
    countCalls (onNameOwnerChanged env s regOk objects).2 isRegisterProfile
      = 1 ∧
    (regOk = false →
      onNameOwnerChanged env s regOk objects
        = (s, [Call.registerProfile s.profilePath SERVICE_UUID SERVICE_PROFILE,
               Call.logError])) ∧
    (regOk = true →
      (onNameOwnerChanged env s regOk objects).2
        = Call.registerProfile s.profilePath SERVICE_UUID SERVICE_PROFILE
            :: Call.getManagedObjects :: (addAllObjects env s objects).2) := by
  have haddcount : countCalls (addAllObjects env s objects).2 isRegisterProfile
      = 0 := by
    apply countCalls_eq_zero
    intro c hc
    rcases addAllObjects_calls_mem env objects s c hc with h2 | ⟨w, h2⟩ <;>
      rw [h2] <;> rfl
  cases hro : regOk with
  | false =>
      refine ⟨⟨[Call.logError], ?_⟩, ?_, ?_, ?_⟩
      · simp [onNameOwnerChanged, h]
      · simp [onNameOwnerChanged, h]
        rfl
      · intro _
        simp [onNameOwnerChanged, h]
      · intro hcontra
        cases hcontra
  | true =>
      refine ⟨⟨Call.getManagedObjects :: (addAllObjects env s objects).2, ?_⟩,
          ?_, ?_, ?_⟩
      · simp [onNameOwnerChanged, h]
      · have hgoal : (onNameOwnerChanged env s true objects).2
            = Call.registerProfile s.profilePath SERVICE_UUID SERVICE_PROFILE
                :: Call.getManagedObjects :: (addAllObjects env s objects).2 := by
          simp [onNameOwnerChanged, h]
        rw [hgoal]
        have hstep : countCalls
            (Call.registerProfile s.profilePath SERVICE_UUID SERVICE_PROFILE
              :: Call.getManagedObjects :: (addAllObjects env s objects).2)
            isRegisterProfile
          = 1 + countCalls (addAllObjects env s objects).2 isRegisterProfile := by
          unfold countCalls
          rw [List.filter_cons, List.filter_cons]
          simp [isRegisterProfile]
          omega
        rw [hstep, haddcount]
      · intro hcontra
        cases hcontra
      · intro _
        simp [onNameOwnerChanged, h]

theorem bound_register_then_enumerate_witness :
    (∃ rest, (onNameOwnerChanged emptyEnv emptyBoundState false []).2
        = Call.registerProfile emptyBoundState.profilePath SERVICE_UUID
            SERVICE_PROFILE :: rest) ∧
    countCalls (onNameOwnerChanged emptyEnv emptyBoundState false []).2
        isRegisterProfile = 1 ∧
    onNameOwnerChanged emptyEnv emptyBoundState false []
      = (emptyBoundState,
         [Call.registerProfile emptyBoundState.profilePath SERVICE_UUID
            SERVICE_PROFILE,
          Call.logError]) := by
  have h := bound_register_then_enumerate emptyEnv emptyBoundState false [] ":1.3"
      rfl
  exact ⟨h.1, h.2.1, h.2.2.1 rfl⟩

/-- Claim C6: the mirror reflects exactly the observed events — adding an
already-tracked object id changes nothing, removing an unknown id changes
nothing, a removal carrying an empty interface list is ignored, adding an
untracked Device1 object appends exactly that device (fresh, channel-free)
and notifies, and removing a tracked Device1 object deletes exactly that
entry, disconnecting its handler and closing its channel, and notifies. -/
theorem mirror_event_algebra (env : String → Option DevData) (s : ServiceState)
    (object_path : String) (ifaces : List String) (d : BlueDev)
    (data : DevData) :
    (jsMapHas s.devices object_path = true →
      onInterfacesAdded env s object_path ifaces = (s, [])) ∧
    (jsMapHas s.devices object_path = false →
      onInterfacesRemoved s object_path ifaces = (s, [])) ∧
    (onInterfacesRemoved s object_path [] = (s, [])) ∧
    (jsMapHas s.devices object_path = false → env object_path = some data →
      onInterfacesAdded env s object_path ["org.bluez.Device1"]
        = ({ s with devices := s.devices ++
              [(object_path, freshProxy object_path s.devices.length data)] },
           [Call.notifyDevices])) ∧
    (jsMapGet s.devices object_path = some d →
      onInterfacesRemoved s object_path ["org.bluez.Device1"]
        = ({ s with devices := jsMapDelete s.devices object_path },
           Call.deviceSignalDisconnect d.changedId
             :: ((deviceClose d).2 ++ [Call.notifyDevices]))) := by
  refine ⟨?_, ?_, ?_, ?_, ?_⟩
  · intro h
    exact addLoop_tracked env object_path ifaces s h
  · intro h
    unfold onInterfacesRemoved
    split
    · rfl
    · exact removeLoop_untracked object_path ifaces s h
  · rfl
  · intro h he
    exact addLoop_single_untracked env s object_path data h he
  · intro h
    have hres := removeLoop_single_tracked s object_path d h
    unfold onInterfacesRemoved
    simpa using hres

theorem mirror_event_algebra_witness :
    onInterfacesAdded sampleEnv (sampleState (some ":1.3") none)
        "/org/bluez/hci0/dev_AA_BB_CC_DD_EE_FF" ["org.bluez.Device1"]
      = (sampleState (some ":1.3") none, []) ∧
    onInterfacesRemoved (sampleState (some ":1.3") none) "/unknown"
        ["org.bluez.Device1"] = (sampleState (some ":1.3") none, []) ∧
    onInterfacesRemoved (sampleState (some ":1.3") none)
        "/org/bluez/hci0/dev_AA_BB_CC_DD_EE_FF" []
      = (sampleState (some ":1.3") none, []) :=
  ⟨(mirror_event_algebra sampleEnv (sampleState (some ":1.3") none)
      "/org/bluez/hci0/dev_AA_BB_CC_DD_EE_FF" ["org.bluez.Device1"]
      (sampleDev none)
      { address := "AA:BB:CC:DD:EE:FF", deviceAlias := "Phone", paired := true,
        connected := false, servicesResolved := false,
        uuids := [SERVICE_UUID] }).1 (by decide),
   (mirror_event_algebra sampleEnv (sampleState (some ":1.3") none) "/unknown"
      ["org.bluez.Device1"] (sampleDev none)
      { address := "AA:BB:CC:DD:EE:FF", deviceAlias := "Phone", paired := true,
        connected := false, servicesResolved := false,
        uuids := [SERVICE_UUID] }).2.1 (by decide),
   (mirror_event_algebra sampleEnv (sampleState (some ":1.3") none)
      "/org/bluez/hci0/dev_AA_BB_CC_DD_EE_FF" ["org.bluez.Device1"]
      (sampleDev none)
      { address := "AA:BB:CC:DD:EE:FF", deviceAlias := "Phone", paired := true,
        connected := false, servicesResolved := false,
        uuids := [SERVICE_UUID] }).2.2.1⟩

/-- Claim C8: every registration request issued to the profile manager
carries exactly the exported profile's object path, the service UUID
185f3df4-3268-4e3f-9fca-d4d5059915bd, and the options
RequireAuthorization=false, RequireAuthentication=true and the static SDP
record. -/
theorem register_call_contents (env : String → Option DevData)
    (s : ServiceState) (regOk : Bool) (objects : List (String × List String))
    (c : Call) (hc : c ∈ (onNameOwnerChanged env s regOk objects).2)
    (hr : isRegisterProfile c = true) :
    c = Call.registerProfile s.profilePath SERVICE_UUID SERVICE_PROFILE ∧
    SERVICE_UUID = "185f3df4-3268-4e3f-9fca-d4d5059915bd" ∧
    SERVICE_PROFILE.requireAuthorization = false ∧
    SERVICE_PROFILE.requireAuthentication = true ∧
    SERVICE_PROFILE.serviceRecord = SERVICE_RECORD := by
  refine ⟨?_, rfl, rfl, rfl, rfl⟩
  cases ho : s.gNameOwner with
  | none =>
      simp only [onNameOwnerChanged, ho] at hc
      rcases List.mem_append.mp hc with h2 | h2
      · rcases List.mem_map.mp h2 with ⟨p, _, hp⟩
        rw [← hp] at hr
        simp [isRegisterProfile] at hr
      · have h3 : c = Call.getManagedObjects := by simpa using h2
        rw [h3] at hr
        simp [isRegisterProfile] at hr
  | some o =>
      simp only [onNameOwnerChanged, ho] at hc
      by_cases hro : regOk = true
      · rw [if_pos hro] at hc
        rcases List.mem_cons.mp hc with h2 | h2
        · exact h2
        · rcases List.mem_cons.mp h2 with h3 | h3
          · rw [h3] at hr
            simp [isRegisterProfile] at hr
          · rcases addAllObjects_calls_mem env objects s c h3 with h4 | ⟨w, h4⟩ <;>
              rw [h4] at hr <;> simp [isRegisterProfile] at hr
      · rw [if_neg hro] at hc
        rcases List.mem_cons.mp hc with h2 | h2
        · exact h2
        · have h3 : c = Call.logError := by simpa using h2
          rw [h3] at hr
          simp [isRegisterProfile] at hr

theorem register_call_contents_witness :
    Call.registerProfile emptyBoundState.profilePath SERVICE_UUID SERVICE_PROFILE
      = Call.registerProfile emptyBoundState.profilePath SERVICE_UUID
          SERVICE_PROFILE ∧
    SERVICE_UUID = "185f3df4-3268-4e3f-9fca-d4d5059915bd" ∧
    SERVICE_PROFILE.requireAuthorization = false ∧
    SERVICE_PROFILE.requireAuthentication = true ∧
    SERVICE_PROFILE.serviceRecord = SERVICE_RECORD :=
  register_call_contents emptyEnv emptyBoundState true []
    (Call.registerProfile emptyBoundState.profilePath SERVICE_UUID
      SERVICE_PROFILE)
    (by decide) (by decide)

theorem destroy_pmd_count (s : ServiceState) :
    countCalls (destroy s).2 isProfileManagerDestroy
      = (if s.profileManager.isSome then 1 else 0) := by
  unfold destroy
  rw [countCalls_append, countCalls_append, countCalls_append,
      closeAllCalls_count_other _ _ (fun w => rfl)]
  cases hpm : s.profileManager.isSome <;> cases hpf : s.profile.isSome <;>
    simp [countCalls, isProfileManagerDestroy]

theorem destroy_pd_count (s : ServiceState) :
    countCalls (destroy s).2 isProfileDestroy
      = (if s.profile.isSome then 1 else 0) := by
  unfold destroy
  rw [countCalls_append, countCalls_append, countCalls_append,
      closeAllCalls_count_other _ _ (fun w => rfl)]
  cases hpm : s.profileManager.isSome <;> cases hpf : s.profile.isSome <;>
    simp [countCalls, isProfileDestroy]

/-- Claim C9 amended: destroy disconnects the owner watch, closes exactly
the channels of devices that hold one, and releases the profile endpoint
and the profile-manager handle when present; a second destroy closes no
channel twice and never re-releases the profile manager (that reference is
nulled), but it releases the exported profile endpoint AGAIN, because the
profile reference survives destroy un-cleared — only the profile-manager
release is fully guarded. -/
theorem destroy_release_behavior (s : ServiceState) :
    (destroy s).1.profileManager = none ∧
    (destroy s).1.profile = s.profile ∧
    countCalls (destroy s).2 isCloseMuxer = activeChannels s ∧
    activeChannels (destroy s).1 = 0 ∧
    countCalls (destroy (destroy s).1).2 isCloseMuxer = 0 ∧
    countCalls (destroy (destroy s).1).2 isProfileManagerDestroy = 0 ∧
    (s.profile.isSome = true →
      countCalls (destroy s).2 isProfileDestroy = 1 ∧
      countCalls (destroy (destroy s).1).2 isProfileDestroy = 1) := by
  refine ⟨rfl, rfl, destroy_closeCount s, activeChannels_destroy s, ?_, ?_, ?_⟩
  · rw [destroy_closeCount ((destroy s).1), activeChannels_destroy s]
  · rw [destroy_pmd_count ((destroy s).1)]
    have h : (destroy s).1.profileManager = none := rfl
    rw [h]
    rfl
  · intro hp
    constructor
    · rw [destroy_pd_count s, hp]
      rfl
    · rw [destroy_pd_count ((destroy s).1)]
      have h : (destroy s).1.profile = s.profile := rfl
      rw [h, hp]
      rfl

theorem destroy_release_behavior_witness :
    (destroy (sampleState (some ":1.3") (some 5))).1.profileManager = none ∧
    (destroy (sampleState (some ":1.3") (some 5))).1.profile
      = (sampleState (some ":1.3") (some 5)).profile ∧
    countCalls (destroy (sampleState (some ":1.3") (some 5))).2 isCloseMuxer
      = activeChannels (sampleState (some ":1.3") (some 5)) ∧
    activeChannels (destroy (sampleState (some ":1.3") (some 5))).1 = 0 ∧
    countCalls (destroy (destroy (sampleState (some ":1.3") (some 5))).1).2
        isCloseMuxer = 0 ∧
    countCalls (destroy (destroy (sampleState (some ":1.3") (some 5))).1).2
        isProfileManagerDestroy = 0 ∧
    countCalls (destroy (sampleState (some ":1.3") (some 5))).2
        isProfileDestroy = 1 ∧
    countCalls (destroy (destroy (sampleState (some ":1.3") (some 5))).1).2
        isProfileDestroy = 1 := by
  have h := destroy_release_behavior (sampleState (some ":1.3") (some 5))
  exact ⟨h.1, h.2.1, h.2.2.1, h.2.2.2.1, h.2.2.2.2.1, h.2.2.2.2.2.1,
    (h.2.2.2.2.2.2 rfl).1, (h.2.2.2.2.2.2 rfl).2⟩

end Bluetooth
